import Mathlib

/-!
Shallow embedding of the go-SOLID repository: five independent Go files,
each demonstrating one SOLID principle with small structs, interfaces and
coordinator functions whose only effect is printing lines to stdout.

Modelling conventions:
- A method's effect is the list of lines it writes to standard output.
- A method that can panic returns `Except String (List String)`:
  `Except.error msg` models `panic(msg)` (which writes nothing to stdout),
  `Except.ok lines` models normal completion having written `lines`.
- A Go interface becomes a structure bundling the behaviors of its
  operations; a concrete struct gets a `toX` conversion supplying its own
  methods, mirroring Go's implicit interface satisfaction.
- Go `int` is modelled as `Int`: the programs never do arithmetic on the
  values, only `%d`-format them, so word size is irrelevant.
-/

/-- Models Go `fmt.Sprintf("%.2f", float64(amount))` for an integer
`amount` as it occurs in `OrderService.PlaceOrder`: the conversion
`float64(amount)` is exact for the magnitudes of interest and `%.2f`
renders the integer followed by ".00". -/
def formatAmount2 (amount : Int) : String := toString amount ++ ".00"

/-! ### Open/Closed Principle example (src/unnamed/part_000, OCP part) -/

namespace OCP

structure EmailService

structure SmsService

/-- Go: `func (e EmailService) Send() { fmt.Println("Sending email...") }` -/
def EmailService.Send (_ : EmailService) : List String := ["Sending email..."]

/-- Go: `func (s SmsService) Send() { fmt.Println("Sending SMS...") }` -/
def SmsService.Send (_ : SmsService) : List String := ["Sending SMS..."]

/-- Go interface: `type Notification interface { Send() }`. -/
structure Notification where
  Send : List String

def EmailService.toNotification (e : EmailService) : Notification := ⟨e.Send⟩

def SmsService.toNotification (s : SmsService) : Notification := ⟨s.Send⟩

/-- Go: `func SendNotification(n Notification) { n.Send() }` -/
def SendNotification (n : Notification) : List String := n.Send

/-- Go `main`: constructs both variants and invokes the coordinator with each. -/
def mainOutput : List String :=
  SendNotification (EmailService.toNotification {}) ++
    SendNotification (SmsService.toNotification {})

end OCP

/-! ### Dependency Inversion Principle example (src/unnamed/part_000, DIP part) -/

namespace DIP

structure PDFGenerator

/-- Go: `func (p PDFGenerator) Generate(content string) { fmt.Println("Generating PDF with content:", content) }` -/
def PDFGenerator.Generate (_ : PDFGenerator) (content : String) : List String :=
  ["Generating PDF with content: " ++ content]

/-- Bad example: `type ReportService struct { pdf PDFGenerator }`. -/
structure ReportService where
  pdf : PDFGenerator

/-- Go: `func (r ReportService) CreateReport() { content := "Annual Financial Report"; r.pdf.Generate(content) }` -/
def ReportService.CreateReport (r : ReportService) : List String :=
  r.pdf.Generate "Annual Financial Report"

/-- Go interface: `type ReportGenerator interface { Generate(content string) }`. -/
structure ReportGenerator where
  Generate : String → List String

def PDFGenerator.toReportGenerator (p : PDFGenerator) : ReportGenerator :=
  ⟨p.Generate⟩

/-- Good example: `type ReportServiceOne struct { generator ReportGenerator }`. -/
structure ReportServiceOne where
  generator : ReportGenerator

/-- Go: `func NewReportServiceOne(generator ReportGenerator) *ReportServiceOne`. -/
def NewReportServiceOne (generator : ReportGenerator) : ReportServiceOne :=
  ⟨generator⟩

/-- Go: `func (r ReportServiceOne) CreateReport() { content := "Annual Financial Report"; r.generator.Generate(content) }` -/
def ReportServiceOne.CreateReport (r : ReportServiceOne) : List String :=
  r.generator.Generate "Annual Financial Report"

end DIP

/-! ### Liskov Substitution Principle example (src/LiskovSubstitution/main.go) -/

namespace LSP

structure Sparrow

/-- Go: `func (s Sparrow) Fly() { fmt.Println("Sparrow is flying") }` -/
def Sparrow.Fly (_ : Sparrow) : List String := ["Sparrow is flying"]

/-- Go interface: `type Bird interface { Fly() }`. -/
structure Bird where
  Fly : List String

def Sparrow.toBird (s : Sparrow) : Bird := ⟨s.Fly⟩

/-- Go: `func MakeBirdFly(b Bird) { b.Fly() }` -/
def MakeBirdFly (b : Bird) : List String := b.Fly

end LSP

/-! ### Interface Segregation Principle example (src/unnamed/part_001) -/

namespace ISP

/-- Effect of an ISP-example operation: `error msg` is `panic(msg)` (no
stdout output), `ok lines` is normal completion having printed `lines`. -/
abbrev Effect := Except String (List String)

structure SimplePrinterOne

/-- Go: `func (s SimplePrinterOne) Print() { fmt.Println("Printing document") }` -/
def SimplePrinterOne.Print (_ : SimplePrinterOne) : Effect :=
  .ok ["Printing document"]

/-- Go: `func (s SimplePrinterOne) Scan() { panic("Scan not supported") }` -/
def SimplePrinterOne.Scan (_ : SimplePrinterOne) : Effect :=
  .error "Scan not supported"

/-- Go: `func (s SimplePrinterOne) Fax() { panic("Fax not supported") }` -/
def SimplePrinterOne.Fax (_ : SimplePrinterOne) : Effect :=
  .error "Fax not supported"

/-- Go interface: `type Machine interface { Print(); Scan(); Fax() }`. -/
structure Machine where
  Print : Effect
  Scan : Effect
  Fax : Effect

def SimplePrinterOne.toMachine (s : SimplePrinterOne) : Machine :=
  ⟨s.Print, s.Scan, s.Fax⟩

structure SimplePrinter

/-- Go: `func (s SimplePrinter) Print() { fmt.Println("Printing document") }` -/
def SimplePrinter.Print (_ : SimplePrinter) : Effect :=
  .ok ["Printing document"]

structure AdvancedMachine

/-- Go: `func (a AdvancedMachine) Print() { fmt.Println("Printing document") }` -/
def AdvancedMachine.Print (_ : AdvancedMachine) : Effect :=
  .ok ["Printing document"]

/-- Go: `func (a AdvancedMachine) Scan() { fmt.Println("Scanning document") }` -/
def AdvancedMachine.Scan (_ : AdvancedMachine) : Effect :=
  .ok ["Scanning document"]

/-- Go: `func (a AdvancedMachine) Fax() { fmt.Println("Sending fax") }` -/
def AdvancedMachine.Fax (_ : AdvancedMachine) : Effect :=
  .ok ["Sending fax"]

def AdvancedMachine.toMachine (a : AdvancedMachine) : Machine :=
  ⟨a.Print, a.Scan, a.Fax⟩

/-- The method names declared on `SimplePrinterOne` in the source. -/
def SimplePrinterOne.methodSet : List String := ["Print", "Scan", "Fax"]

/-- The method names declared on `SimplePrinter` in the source: only
`Print`; the source declares no `Scan` or `Fax` method on this type. -/
def SimplePrinter.methodSet : List String := ["Print"]

/-- The method names declared on `AdvancedMachine` in the source. -/
def AdvancedMachine.methodSet : List String := ["Print", "Scan", "Fax"]

/-- Operations required by the `Printer` interface. -/
def Printer.ops : List String := ["Print"]

/-- Operations required by the `Scanner` interface. -/
def Scanner.ops : List String := ["Scan"]

/-- Operations required by the `Faxer` interface. -/
def Faxer.ops : List String := ["Fax"]

/-- Operations required by the `Machine` interface. -/
def Machine.ops : List String := ["Print", "Scan", "Fax"]

/-- Go's implicit interface satisfaction: a type implements an interface
when every operation the interface requires is in its method set. -/
def implementsIface (methods iface : List String) : Prop :=
  ∀ m ∈ iface, m ∈ methods

instance (methods iface : List String) :
    Decidable (implementsIface methods iface) :=
  List.decidableBAll _ iface

/-- An operation that performs declared behavior under normal use:
it completes normally (no panic) and writes output (not a no-op). -/
def isRealOp : Effect → Bool
  | .ok lines => !lines.isEmpty
  | .error _ => false

end ISP

/-! ### Single Responsibility Principle example, copy A
(src/SingleResponsibility/main.go) -/

namespace SRP

structure OrderRepository

/-- Go: `func (o OrderRepository) Save(orderID int) { fmt.Printf("Saving order %d to database\n", orderID) }` -/
def OrderRepository.Save (_ : OrderRepository) (orderID : Int) : List String :=
  ["Saving order " ++ toString orderID ++ " to database"]

structure PaymentService

/-- Go: `func (p PaymentService) Process(amount float64) { fmt.Printf("Processing payment of %.2f\n", amount) }`,
as invoked by `PlaceOrder` with `float64(amount)` for an integer amount. -/
def PaymentService.Process (_ : PaymentService) (amount : Int) : List String :=
  ["Processing payment of " ++ formatAmount2 amount]

structure EmailService

/-- Go: `func (e EmailService) Send() { fmt.Println("Sending confirmation email") }` -/
def EmailService.Send (_ : EmailService) : List String :=
  ["Sending confirmation email"]

structure InvoiceService

/-- Go: `func (i InvoiceService) Generate(orderID int) { fmt.Printf("Generating invoice for order %d\n", orderID) }` -/
def InvoiceService.Generate (_ : InvoiceService) (orderID : Int) : List String :=
  ["Generating invoice for order " ++ toString orderID]

/-- Go: `type OrderService struct { repo OrderRepository; payment PaymentService; email EmailService; invoice InvoiceService }`. -/
structure OrderService where
  repo : OrderRepository
  payment : PaymentService
  email : EmailService
  invoice : InvoiceService

/-- Go: `func (os OrderService) PlaceOrder(orderId int, amount int)`:
calls `Save(orderId)`, `Process(float64(amount))`, `Send()`,
`Generate(orderId)` in that order. -/
def OrderService.PlaceOrder (o : OrderService) (orderId : Int) (amount : Int) :
    List String :=
  o.repo.Save orderId ++ o.payment.Process amount ++ o.email.Send ++
    o.invoice.Generate orderId

end SRP

/-! ### Single Responsibility Principle example, copy B
(src/unnamed/part_002), textually the same program. -/

namespace SRPb

structure OrderRepository

/-- Go (part_002): `func (o OrderRepository) Save(orderID int)`. -/
def OrderRepository.Save (_ : OrderRepository) (orderID : Int) : List String :=
  ["Saving order " ++ toString orderID ++ " to database"]

structure PaymentService

/-- Go (part_002): `func (p PaymentService) Process(amount float64)`,
as invoked by `PlaceOrder` with `float64(amount)`. -/
def PaymentService.Process (_ : PaymentService) (amount : Int) : List String :=
  ["Processing payment of " ++ formatAmount2 amount]

structure EmailService

/-- Go (part_002): `func (e EmailService) Send()`. -/
def EmailService.Send (_ : EmailService) : List String :=
  ["Sending confirmation email"]

structure InvoiceService

/-- Go (part_002): `func (i InvoiceService) Generate(orderID int)`. -/
def InvoiceService.Generate (_ : InvoiceService) (orderID : Int) : List String :=
  ["Generating invoice for order " ++ toString orderID]

structure OrderService where
  repo : OrderRepository
  payment : PaymentService
  email : EmailService
  invoice : InvoiceService

/-- Go (part_002): `func (os OrderService) PlaceOrder(orderId int, amount int)`. -/
def OrderService.PlaceOrder (o : OrderService) (orderId : Int) (amount : Int) :
    List String :=
  o.repo.Save orderId ++ o.payment.Process amount ++ o.email.Send ++
    o.invoice.Generate orderId

end SRPb

/-! ### Invocation traces

Every operation invocation in the repository, with its arguments, as a
single inductive; `emit` gives the stdout lines of one invocation (via the
source method definitions), and `runAll` threads the accumulated stdout
through a sequence of invocations. -/

inductive Op where
  | sendEmail
  | sendSms
  | generatePdf (content : String)
  | createReportBad
  | createReportGood
  | sparrowFly
  | makeSparrowFly
  | printOne
  | scanOne
  | faxOne
  | simplePrint
  | advPrint
  | advScan
  | advFax
  | saveOrder (orderId : Int)
  | processPayment (amount : Int)
  | sendConfirmation
  | generateInvoice (orderId : Int)
  | placeOrder (orderId : Int) (amount : Int)
deriving DecidableEq

/-- Stdout lines of an ISP effect: a panic writes nothing to stdout. -/
def linesOf : ISP.Effect → List String
  | .ok lines => lines
  | .error _ => []

/-- Stdout lines written by one invocation, a function of the operation
and its arguments alone, defined through the embedded source methods. -/
def emit : Op → List String
  | .sendEmail => OCP.SendNotification (OCP.EmailService.toNotification {})
  | .sendSms => OCP.SendNotification (OCP.SmsService.toNotification {})
  | .generatePdf content => DIP.PDFGenerator.Generate {} content
  | .createReportBad => DIP.ReportService.CreateReport ⟨{}⟩
  | .createReportGood =>
      (DIP.NewReportServiceOne (DIP.PDFGenerator.toReportGenerator {})).CreateReport
  | .sparrowFly => LSP.Sparrow.Fly {}
  | .makeSparrowFly => LSP.MakeBirdFly (LSP.Sparrow.toBird {})
  | .printOne => linesOf (ISP.SimplePrinterOne.Print {})
  | .scanOne => linesOf (ISP.SimplePrinterOne.Scan {})
  | .faxOne => linesOf (ISP.SimplePrinterOne.Fax {})
  | .simplePrint => linesOf (ISP.SimplePrinter.Print {})
  | .advPrint => linesOf (ISP.AdvancedMachine.Print {})
  | .advScan => linesOf (ISP.AdvancedMachine.Scan {})
  | .advFax => linesOf (ISP.AdvancedMachine.Fax {})
  | .saveOrder orderId => SRP.OrderRepository.Save {} orderId
  | .processPayment amount => SRP.PaymentService.Process {} amount
  | .sendConfirmation => SRP.EmailService.Send {}
  | .generateInvoice orderId => SRP.InvoiceService.Generate {} orderId
  | .placeOrder orderId amount =>
      SRP.OrderService.PlaceOrder ⟨{}, {}, {}, {}⟩ orderId amount

/-- One step of a run: the invocation appends its lines to the stdout
accumulated so far (the only state in the whole repository). -/
def runStep (out : List String) (op : Op) : List String := out ++ emit op

/-- Stdout of a whole run: a sequence of invocations starting from empty
output. -/
def runAll (ops : List Op) : List String := ops.foldl runStep []

/-! ## Theorems settling the claims -/

/-- C1: every coordinator, applied to any value of the capability
abstraction it expects, produces exactly the effect of that value's own
operation — `SendNotification n` is `n.Send`, `MakeBirdFly b` is `b.Fly`,
and `CreateReport` on a `ReportServiceOne` built from generator `g` is
`g.Generate "Annual Financial Report"` — uniformly in the variant, with no
branching on which variant it is. -/
theorem coordinators_invoke_variant_ops (n : OCP.Notification) (b : LSP.Bird)
    (g : DIP.ReportGenerator) :
    OCP.SendNotification n = n.Send ∧
    LSP.MakeBirdFly b = b.Fly ∧
    (DIP.NewReportServiceOne g).CreateReport =
      g.Generate "Annual Financial Report" :=
  ⟨rfl, rfl, rfl⟩

/-- C2: for every orderId and amount, `PlaceOrder` produces exactly the
concatenation of its four collaborators' outputs in the fixed order
Save, Process, Send, Generate; each collaborator contributes exactly one
line, so the whole invocation is exactly four lines, each attributable to
exactly one collaborator. -/
theorem placeOrder_four_collaborators (o : SRP.OrderService)
    (orderId amount : Int) :
    o.PlaceOrder orderId amount =
      o.repo.Save orderId ++ o.payment.Process amount ++ o.email.Send ++
        o.invoice.Generate orderId ∧
    (o.repo.Save orderId).length = 1 ∧
    (o.payment.Process amount).length = 1 ∧
    o.email.Send.length = 1 ∧
    (o.invoice.Generate orderId).length = 1 ∧
    (o.PlaceOrder orderId amount).length = 4 :=
  ⟨rfl, rfl, rfl, rfl, rfl, rfl⟩

/-- C3 counterexample: `SimplePrinterOne` satisfies the `Machine`
interface, yet its `Scan` operation is a stub that panics — it does not
perform declared behavior under normal use, so the claim that no operation
of a `Machine`-satisfying variant is an erroring or no-op stub is false. -/
theorem machine_variant_has_erroring_stub :
    ISP.isRealOp (ISP.SimplePrinterOne.toMachine {}).Scan = false ∧
    (ISP.SimplePrinterOne.toMachine {}).Scan =
      Except.error "Scan not supported" :=
  ⟨rfl, rfl⟩

/-- C3 amended: among the `Machine`-satisfying variants, every operation
of `AdvancedMachine` performs its declared behavior (completes normally
with output), and so does `SimplePrinterOne.Print`; the exceptions are
exactly `SimplePrinterOne.Scan` and `SimplePrinterOne.Fax`, the deliberate
ISP counter-example stubs, which panic. -/
theorem machine_variants_behavior (s : ISP.SimplePrinterOne)
    (a : ISP.AdvancedMachine) :
    ISP.isRealOp (ISP.AdvancedMachine.toMachine a).Print = true ∧
    ISP.isRealOp (ISP.AdvancedMachine.toMachine a).Scan = true ∧
    ISP.isRealOp (ISP.AdvancedMachine.toMachine a).Fax = true ∧
    ISP.isRealOp (ISP.SimplePrinterOne.toMachine s).Print = true ∧
    (ISP.SimplePrinterOne.toMachine s).Scan =
      Except.error "Scan not supported" ∧
    (ISP.SimplePrinterOne.toMachine s).Fax =
      Except.error "Fax not supported" :=
  ⟨rfl, rfl, rfl, rfl, rfl, rfl⟩

/-- C4: for every invocation, `SimplePrinterOne.Scan` and
`SimplePrinterOne.Fax` abort with an unsupported-operation panic and never
return normally, while `SimplePrinterOne.Print` completes normally with
its one line of output. -/
theorem simplePrinterOne_panics_on_unsupported (s : ISP.SimplePrinterOne) :
    s.Scan = Except.error "Scan not supported" ∧
    s.Fax = Except.error "Fax not supported" ∧
    (∀ lines, s.Scan ≠ Except.ok lines) ∧
    (∀ lines, s.Fax ≠ Except.ok lines) ∧
    s.Print = Except.ok ["Printing document"] :=
  ⟨rfl, rfl, fun _ h => by simp [ISP.SimplePrinterOne.Scan] at h,
    fun _ h => by simp [ISP.SimplePrinterOne.Fax] at h, rfl⟩

/-- C5: `SimplePrinter` implements the `Printer` interface and its method
set contains no `Scan` and no `Fax` at all (absence of the operations, not
a failing call), while `AdvancedMachine` implements `Printer`, `Scanner`
and `Faxer`; both variants' print behaviors are real. -/
theorem isp_narrow_and_broad_variants :
    ISP.implementsIface ISP.SimplePrinter.methodSet ISP.Printer.ops ∧
    "Scan" ∉ ISP.SimplePrinter.methodSet ∧
    "Fax" ∉ ISP.SimplePrinter.methodSet ∧
    ISP.implementsIface ISP.AdvancedMachine.methodSet ISP.Printer.ops ∧
    ISP.implementsIface ISP.AdvancedMachine.methodSet ISP.Scanner.ops ∧
    ISP.implementsIface ISP.AdvancedMachine.methodSet ISP.Faxer.ops ∧
    ISP.SimplePrinter.Print {} = Except.ok ["Printing document"] ∧
    ISP.AdvancedMachine.Scan {} = Except.ok ["Scanning document"] := by
  refine ⟨?_, ?_, ?_, ?_, ?_, ?_, rfl, rfl⟩ <;> decide

/-- C6: the mail-like variant `EmailService` and the text-message-like
variant `SmsService` both satisfy the `Notification` abstraction, and the
coordinator `SendNotification` applied to each yields the two distinct
variant-specific lines. -/
theorem sendNotification_two_variants :
    OCP.SendNotification (OCP.EmailService.toNotification {}) =
      ["Sending email..."] ∧
    OCP.SendNotification (OCP.SmsService.toNotification {}) =
      ["Sending SMS..."] ∧
    OCP.SendNotification (OCP.EmailService.toNotification {}) ≠
      OCP.SendNotification (OCP.SmsService.toNotification {}) ∧
    OCP.mainOutput = ["Sending email...", "Sending SMS..."] := by
  refine ⟨rfl, rfl, ?_, rfl⟩
  decide

/-- C7 counterexample: `PlaceOrder` is an operation declared on a
coordinator (`OrderService`), yet invoking it at orderId 1, amount 5000
writes four lines, not one; and `SimplePrinterOne.Scan`, an operation
declared on a variant, panics and writes no stdout line at all. -/
theorem one_line_per_invocation_fails :
    (SRP.OrderService.PlaceOrder ⟨{}, {}, {}, {}⟩ 1 5000).length = 4 ∧
    (SRP.OrderService.PlaceOrder ⟨{}, {}, {}, {}⟩ 1 5000).length ≠ 1 ∧
    linesOf (ISP.SimplePrinterOne.Scan {}) = [] := by
  refine ⟨rfl, ?_, rfl⟩
  decide

/-- C7 amended: every operation declared on a variant or coordinator
writes exactly one line per invocation, except `OrderService.PlaceOrder`,
which writes exactly four (one per collaborator), and the deliberate stubs
`SimplePrinterOne.Scan` and `SimplePrinterOne.Fax`, which panic and write
none. -/
theorem one_line_per_invocation_amended (content : String)
    (orderId amount : Int) :
    (OCP.EmailService.Send {}).length = 1 ∧
    (OCP.SmsService.Send {}).length = 1 ∧
    (OCP.SendNotification (OCP.EmailService.toNotification {})).length = 1 ∧
    (OCP.SendNotification (OCP.SmsService.toNotification {})).length = 1 ∧
    (DIP.PDFGenerator.Generate {} content).length = 1 ∧
    (DIP.ReportService.CreateReport ⟨{}⟩).length = 1 ∧
    ((DIP.NewReportServiceOne
        (DIP.PDFGenerator.toReportGenerator {})).CreateReport).length = 1 ∧
    (LSP.Sparrow.Fly {}).length = 1 ∧
    (LSP.MakeBirdFly (LSP.Sparrow.toBird {})).length = 1 ∧
    (linesOf (ISP.SimplePrinterOne.Print {})).length = 1 ∧
    (linesOf (ISP.SimplePrinter.Print {})).length = 1 ∧
    (linesOf (ISP.AdvancedMachine.Print {})).length = 1 ∧
    (linesOf (ISP.AdvancedMachine.Scan {})).length = 1 ∧
    (linesOf (ISP.AdvancedMachine.Fax {})).length = 1 ∧
    linesOf (ISP.SimplePrinterOne.Scan {}) = [] ∧
    linesOf (ISP.SimplePrinterOne.Fax {}) = [] ∧
    (SRP.OrderRepository.Save {} orderId).length = 1 ∧
    (SRP.PaymentService.Process {} amount).length = 1 ∧
    (SRP.EmailService.Send {}).length = 1 ∧
    (SRP.InvoiceService.Generate {} orderId).length = 1 ∧
    (SRP.OrderService.PlaceOrder ⟨{}, {}, {}, {}⟩ orderId amount).length = 4 :=
  ⟨rfl, rfl, rfl, rfl, rfl, rfl, rfl, rfl, rfl, rfl, rfl, rfl, rfl, rfl,
    rfl, rfl, rfl, rfl, rfl, rfl, rfl⟩

/-- C8: invocations are stateless and persist nothing — the lines an
invocation appends to the run's output are `emit op`, a function of the
operation and its arguments alone, regardless of any prior invocations,
and invoking the same operation twice in sequence appends the identical
lines both times; moreover every variant type is a fieldless value type,
so two instances of a variant are always equal (no mutable per-instance
state). -/
theorem invocations_stateless (prior : List Op) (op : Op) :
    runAll (prior ++ [op]) = runAll prior ++ emit op ∧
    runAll (prior ++ [op, op]) = runAll prior ++ emit op ++ emit op ∧
    (∀ a b : OCP.EmailService, a = b) ∧
    (∀ a b : OCP.SmsService, a = b) ∧
    (∀ a b : SRP.OrderRepository, a = b) ∧
    (∀ a b : SRP.PaymentService, a = b) ∧
    (∀ a b : SRP.EmailService, a = b) ∧
    (∀ a b : SRP.InvoiceService, a = b) := by
  refine ⟨?_, ?_, fun a b => rfl, fun a b => rfl, fun a b => rfl,
    fun a b => rfl, fun a b => rfl, fun a b => rfl⟩
  · simp [runAll, List.foldl_append, runStep]
  · simp [runAll, List.foldl_append, runStep, List.append_assoc]

/-- C9: the DIP "bad" service wired to the concrete `PDFGenerator` and the
DIP "good" service built by `NewReportServiceOne` from the same generator
are observationally equivalent — both `CreateReport` invocations produce
the identical single line. -/
theorem dip_bad_good_equivalent :
    (DIP.ReportService.mk {}).CreateReport =
      (DIP.NewReportServiceOne
        (DIP.PDFGenerator.toReportGenerator {})).CreateReport ∧
    (DIP.ReportService.mk {}).CreateReport =
      ["Generating PDF with content: Annual Financial Report"] :=
  ⟨rfl, rfl⟩

/-- C10: the two copies of the SRP example are behaviorally identical —
for every orderId and amount, `PlaceOrder` from src/unnamed/part_002
produces exactly the same output sequence as `PlaceOrder` from
src/SingleResponsibility/main.go. -/
theorem srp_copies_equivalent (o1 : SRP.OrderService) (o2 : SRPb.OrderService)
    (orderId amount : Int) :
    o1.PlaceOrder orderId amount = o2.PlaceOrder orderId amount :=
  rfl
